import Mathlib

/-!
Verification of the Virtual Media Player gesture-control core.

The development shallowly embeds the per-frame gesture pipeline of
`src/main.py` and the media-player factory of `src/interface.py`:

* landmark position lists are `List (Int × Int)` (the x and y pixel
  coordinates built by `HandDetection.finger_position`, indexed by the
  MediaPipe landmark index);
* the zone boundaries computed by `Screen.line_pos` live in `ℚ` (the
  Python code computes them with exact real formulas; this development
  uses exact rational arithmetic);
* the five dispatcher operations of the `Command` interface become an
  inductive `Op`, and a processed frame is modelled by the list of
  operations the frame loop invokes on the shared media player.
-/

/-- The five operations of the `Command` dispatcher interface in
`src/interface.py`. -/
inductive Op where
  | play_pause
  | volume_increase
  | volume_decrease
  | forward
  | backward
deriving DecidableEq, Repr

/-- The x coordinate of landmark `i`, i.e. `o_pos_lst[i][1]` in
`src/main.py` (position lists produced by `finger_position` store
`[index, x, y]`; out-of-range access does not occur on real 21-landmark
frames and defaults to `0` here). -/
def px (o_pos_lst : List (Int × Int)) (i : Nat) : Int :=
  (o_pos_lst.getD i (0, 0)).1

/-- The y coordinate of landmark `i`, i.e. `o_pos_lst[i][2]` in
`src/main.py`. -/
def py (o_pos_lst : List (Int × Int)) (i : Nat) : Int :=
  (o_pos_lst.getD i (0, 0)).2

/-- The module-level list `finger_tips = [4, 8, 12, 16, 20]` of
`src/main.py`. -/
def finger_tips : List Nat := [4, 8, 12, 16, 20]

/-- The `fingers` list built by the frame loop in `main`
(src/main.py lines 291-299): for `i in range(1, 5)`, append `1` when the
fingertip landmark `finger_tips[i]` sits strictly above (smaller y than)
the landmark two indices below it, append `0` when it sits strictly
below, and append nothing on a tie. -/
def fingers_flags (o_position_list : List (Int × Int)) : List Nat :=
  [1, 2, 3, 4].foldl
    (fun fingers i =>
      let tip := finger_tips.getD i 0
      let fingers :=
        if py o_position_list tip < py o_position_list (tip - 2) then
          fingers ++ [1]
        else fingers
      if py o_position_list tip > py o_position_list (tip - 2) then
        fingers ++ [0]
      else fingers)
    []

/-- `total_fingers = fingers.count(1)` from `main`
(src/main.py line 300). -/
def total_fingers (o_position_list : List (Int × Int)) : Nat :=
  (fingers_flags o_position_list).count 1

/-- `HandGesture.total_fingers_0` (src/main.py lines 207-216), returning
the list of dispatcher operations it invokes: `play_pause` exactly when
the palm-center landmark 9 lies strictly between the two lines. -/
def total_fingers_0 (o_pos_lst : List (Int × Int)) (lines_pos : ℚ × ℚ) :
    List Op :=
  if (px o_pos_lst 9 : ℚ) > lines_pos.1 ∧ (px o_pos_lst 9 : ℚ) < lines_pos.2
  then [Op.play_pause]
  else []

/-- `HandGesture.total_fingers_1` (src/main.py lines 218-233), returning
the list of dispatcher operations it invokes.  The guard compares the
index fingertip (landmark 8) against landmark 6; inside it, two
independent `if` statements test the left-zone/Left and
right-zone/Right combinations. -/
def total_fingers_1 (o_pos_lst : List (Int × Int)) (lines_pos : ℚ × ℚ)
    (label : Option String) : List Op :=
  if py o_pos_lst 8 < py o_pos_lst 6 then
    (if (px o_pos_lst 8 : ℚ) < lines_pos.1 ∧ label = some "Left" then
      [Op.backward]
    else []) ++
    (if (px o_pos_lst 8 : ℚ) > lines_pos.2 ∧ label = some "Right" then
      [Op.forward]
    else [])
  else []

/-- `HandGesture.total_fingers_2` (src/main.py lines 235-252), returning
the list of dispatcher operations it invokes.  The guard rechecks both
the middle fingertip (12 vs 10) and the index fingertip (8 vs 6);
inside it, the palm-center landmark 9 is tested against the two zones. -/
def total_fingers_2 (o_pos_lst : List (Int × Int)) (lines_pos : ℚ × ℚ)
    (label : Option String) : List Op :=
  if py o_pos_lst 12 < py o_pos_lst 10 ∧ py o_pos_lst 8 < py o_pos_lst 6 then
    (if (px o_pos_lst 9 : ℚ) < lines_pos.1 ∧ label = some "Left" then
      [Op.volume_decrease]
    else []) ++
    (if (px o_pos_lst 9 : ℚ) > lines_pos.2 ∧ label = some "Right" then
      [Op.volume_increase]
    else [])
  else []

/-- One iteration of the frame loop of `main` (src/main.py lines
290-309) after landmark extraction: when the position list is nonempty,
the finger count selects the matching gesture family (three independent
`if total_fingers == k` tests on the single computed count); the result
is the list of dispatcher operations invoked on the media player during
the frame. -/
def processFrame (o_position_list : List (Int × Int)) (lines_pos_x : ℚ × ℚ)
    (label : Option String) : List Op :=
  if o_position_list.length ≠ 0 then
    (if total_fingers o_position_list = 0 then
      total_fingers_0 o_position_list lines_pos_x
    else []) ++
    (if total_fingers o_position_list = 1 then
      total_fingers_1 o_position_list lines_pos_x label
    else []) ++
    (if total_fingers o_position_list = 2 then
      total_fingers_2 o_position_list lines_pos_x label
    else [])
  else []

/-- `HandDetection.hand_type` (src/main.py lines 146-159): starting from
`None`, the loop overwrites the result with the classification label of
each detected hand in turn, so the returned label is that of the last
hand, or `None` when no handedness classifications are present. -/
def hand_type (multi_handedness : List String) : Option String :=
  multi_handedness.foldl (fun _left_or_right label => some label) none

/-- `screen_first_line_x = (screen_size[0]*555)/1920` from
`Screen.line_pos` (src/main.py line 69). -/
def screen_first_line_x (screen_w : ℚ) : ℚ :=
  (screen_w * 555) / 1920

/-- `screen_second_line_x = (screen_size[0]*1365)/1920` from
`Screen.line_pos` (src/main.py line 70). -/
def screen_second_line_x (screen_w : ℚ) : ℚ :=
  (screen_w * 1365) / 1920

/-- `Screen.line_pos` (src/main.py lines 58-73): the two line pixel
positions are rescaled by `640 / width`.  The screen height is read
together with the width but not used. -/
def line_pos (screen_w screen_h : ℚ) : ℚ × ℚ :=
  ((screen_first_line_x screen_w * 640) / screen_w,
   (screen_second_line_x screen_w * 640) / screen_w)

/-- The dispatcher capability of `src/interface.py`: each of the five
`Command` operations of the `Youtube` implementation presses one key
(then sleeps); the structure records the key each operation presses. -/
structure MediaPlayer where
  play_pause : String
  volume_decrease : String
  volume_increase : String
  forward : String
  backward : String
deriving DecidableEq, Repr

/-- The `Youtube` implementation of `Command` (src/interface.py lines
29-49). -/
def Youtube : MediaPlayer :=
  ⟨"Space", "Down", "Up", "Right", "Left"⟩

/-- `MediaPlayerFactory.create_media_player` (src/interface.py lines
52-61): the name `youtube` yields the `Youtube` dispatcher, any other
name raises `ValueError`, modelled as `Except.error` carrying the
message. -/
def create_media_player (media_ply_name : String) : Except String MediaPlayer :=
  let name := media_ply_name
  if name = "youtube" then Except.ok Youtube
  else Except.error "The application does not work on this media player!"

/-- The Python string method `lower()` applied to the entered player
name, modelled as lowercasing every character. -/
def lower (s : String) : String :=
  String.mk (s.data.map Char.toLower)

/-- The module-level selection in `src/main.py` lines 255-258: the
entered player name is lowercased before the factory lookup. -/
def o_media_player (o_media_player_name : String) : Except String MediaPlayer :=
  create_media_player (lower o_media_player_name)

/-- Concrete 21-landmark observation: a fist (every fingertip strictly
below its reference joint) with the palm-center landmark 9 at x = 300. -/
def obsFist : List (Int × Int) :=
  [(0, 0), (0, 0), (0, 0), (0, 0), (0, 0), (0, 0), (0, 50), (0, 0),
   (0, 60), (300, 0), (0, 50), (0, 0), (0, 60), (0, 0), (0, 50), (0, 0),
   (0, 60), (0, 0), (0, 50), (0, 0), (0, 60)]

/-- Concrete 21-landmark observation: only the index finger extended
(tip 8 above joint 6), fingertip at x = 100, and the index base knuckle
(landmark 5) strictly above the fingertip in image space. -/
def obsIndex : List (Int × Int) :=
  [(0, 0), (0, 0), (0, 0), (0, 0), (0, 0), (0, 30), (0, 50), (0, 0),
   (100, 40), (300, 0), (0, 50), (0, 0), (0, 60), (0, 0), (0, 50), (0, 0),
   (0, 60), (0, 0), (0, 50), (0, 0), (0, 60)]

/-- Concrete 21-landmark observation: only the middle finger extended
(tip 12 above joint 10), giving finger count 1 while the index
fingertip fails its recheck. -/
def obsMiddle : List (Int × Int) :=
  [(0, 0), (0, 0), (0, 0), (0, 0), (0, 0), (0, 0), (0, 50), (0, 0),
   (0, 60), (300, 0), (0, 50), (0, 0), (0, 40), (0, 0), (0, 50), (0, 0),
   (0, 60), (0, 0), (0, 50), (0, 0), (0, 60)]

/-- Concrete 21-landmark observation: index and middle fingers extended,
palm-center landmark 9 at x = 100 (left zone for boundaries 185/455). -/
def obsTwo : List (Int × Int) :=
  [(0, 0), (0, 0), (0, 0), (0, 0), (0, 0), (0, 0), (0, 50), (0, 0),
   (0, 40), (100, 0), (0, 50), (0, 0), (0, 40), (0, 0), (0, 50), (0, 0),
   (0, 60), (0, 0), (0, 50), (0, 0), (0, 60)]

/-- Concrete 21-landmark observation: index, middle and ring fingers
extended, giving finger count 3. -/
def obsThree : List (Int × Int) :=
  [(0, 0), (0, 0), (0, 0), (0, 0), (0, 0), (0, 0), (0, 50), (0, 0),
   (0, 40), (300, 0), (0, 50), (0, 0), (0, 40), (0, 0), (0, 50), (0, 0),
   (0, 40), (0, 0), (0, 50), (0, 0), (0, 60)]

lemma total_fingers_0_length_le_one (o_pos_lst : List (Int × Int))
    (lines_pos : ℚ × ℚ) : (total_fingers_0 o_pos_lst lines_pos).length ≤ 1 := by
  unfold total_fingers_0
  split <;> simp

lemma total_fingers_1_length_le_one (o_pos_lst : List (Int × Int))
    (lines_pos : ℚ × ℚ) (label : Option String) :
    (total_fingers_1 o_pos_lst lines_pos label).length ≤ 1 := by
  unfold total_fingers_1
  split_ifs with h h1 h2 <;> simp_all

lemma total_fingers_2_length_le_one (o_pos_lst : List (Int × Int))
    (lines_pos : ℚ × ℚ) (label : Option String) :
    (total_fingers_2 o_pos_lst lines_pos label).length ≤ 1 := by
  unfold total_fingers_2
  split_ifs with h h1 h2 <;> simp_all

/-- C1: for every landmark position list, zone-boundary pair and
handedness label, the per-frame gesture evaluation invokes at most one
of the five dispatcher operations: the finger count selects at most one
gesture family, and within a family the zone/handedness conditions are
mutually exclusive. -/
theorem processFrame_at_most_one_command (pos : List (Int × Int))
    (lines : ℚ × ℚ) (label : Option String) :
    (processFrame pos lines label).length ≤ 1 := by
  unfold processFrame
  split
  · rcases hn : total_fingers pos with _ | _ | _ | n <;>
      simp [hn, total_fingers_0_length_le_one, total_fingers_1_length_le_one,
        total_fingers_2_length_le_one]
  · simp

/-- C2: at finger count 0 the decision ignores the handedness label:
when the palm-center landmark 9 lies strictly between the two zone
boundaries the frame invokes exactly `play_pause`, and otherwise the
count-0 family invokes nothing. -/
theorem fist_center_play_pause (pos : List (Int × Int)) (lines : ℚ × ℚ)
    (label : Option String) (hpos : pos ≠ [])
    (h0 : total_fingers pos = 0) :
    (((px pos 9 : ℚ) > lines.1 ∧ (px pos 9 : ℚ) < lines.2) →
      processFrame pos lines label = [Op.play_pause]) ∧
    (¬ ((px pos 9 : ℚ) > lines.1 ∧ (px pos 9 : ℚ) < lines.2) →
      processFrame pos lines label = []) := by
  have hlen : pos.length ≠ 0 := by simpa using hpos
  constructor
  · intro hbet
    simp [processFrame, hlen, h0, total_fingers_0, hbet]
  · intro hnb
    simp [processFrame, hlen, h0, total_fingers_0, hnb]

/-- Witness for C2 at a concrete fist observation in the center zone. -/
theorem fist_center_play_pause_witness :
    processFrame obsFist (185, 455) none = [Op.play_pause] ∧
    processFrame obsFist (500, 455) none = [] := by
  refine ⟨(fist_center_play_pause obsFist (185, 455) none (by decide)
    (by decide)).1 (by decide),
    (fist_center_play_pause obsFist (500, 455) none (by decide)
    (by decide)).2 (by decide)⟩

/-- C3: at finger count 1, once the index recheck passes, the frame
invokes exactly `backward` when the index fingertip is strictly left of
the left boundary with handedness Left, exactly `forward` when it is
strictly right of the right boundary with handedness Right, and nothing
in every other handedness/zone combination. -/
theorem index_seek_zones (pos : List (Int × Int)) (lines : ℚ × ℚ)
    (label : Option String) (hpos : pos ≠ [])
    (h1 : total_fingers pos = 1) (hre : py pos 8 < py pos 6) :
    (((px pos 8 : ℚ) < lines.1 ∧ label = some "Left") →
      processFrame pos lines label = [Op.backward]) ∧
    (((px pos 8 : ℚ) > lines.2 ∧ label = some "Right") →
      processFrame pos lines label = [Op.forward]) ∧
    (¬ ((px pos 8 : ℚ) < lines.1 ∧ label = some "Left") →
      ¬ ((px pos 8 : ℚ) > lines.2 ∧ label = some "Right") →
      processFrame pos lines label = []) := by
  have hlen : pos.length ≠ 0 := by simpa using hpos
  refine ⟨fun hL => ?_, fun hR => ?_, fun hnL hnR => ?_⟩
  · have hnR : ¬ ((px pos 8 : ℚ) > lines.2 ∧ label = some "Right") := by
      rintro ⟨-, hlab⟩
      rw [hL.2] at hlab
      exact (by simp at hlab)
    simp [processFrame, hlen, h1, total_fingers_1, hre, hL, hnR]
  · have hnL : ¬ ((px pos 8 : ℚ) < lines.1 ∧ label = some "Left") := by
      rintro ⟨-, hlab⟩
      rw [hR.2] at hlab
      exact (by simp at hlab)
    simp [processFrame, hlen, h1, total_fingers_1, hre, hR, hnL]
  · simp [processFrame, hlen, h1, total_fingers_1, hre, hnL, hnR]

/-- Witness for C3 at a concrete index-only observation in the left
zone. -/
theorem index_seek_zones_witness :
    processFrame obsIndex (185, 455) (some "Left") = [Op.backward] ∧
    processFrame obsIndex (185, 455) (some "Right") = [] := by
  refine ⟨(index_seek_zones obsIndex (185, 455) (some "Left") (by decide)
    (by decide) (by decide)).1 (by decide), ?_⟩
  exact (index_seek_zones obsIndex (185, 455) (some "Right") (by decide)
    (by decide) (by decide)).2.2 (by decide) (by decide)

/-- C4 counterexample: the Seek family does not require the index
fingertip to be above the index base knuckle (landmark 5).  On this
concrete count-1 observation the fingertip y (40) is not less than the
base-knuckle y (30), yet the frame still invokes `backward`, so the
claimed tip-vs-base gate does not exist in the code. -/
theorem seek_fires_without_tip_vs_base :
    total_fingers obsIndex = 1 ∧
    ¬ py obsIndex 8 < py obsIndex 5 ∧
    processFrame obsIndex (185, 455) (some "Left") = [Op.backward] := by
  decide

/-- C4 amended: the count-1 gate is the comparison of the index
fingertip (landmark 8) against landmark 6 — the identical tip-vs-mid
comparison already used to compute the finger count, not a stricter
tip-vs-base check; a Seek command is invoked only when that comparison
holds.  The gate still rejects some count-1 frames: on the concrete
observation where only the middle finger is extended, the count is 1
but no command is invoked. -/
theorem seek_gate_is_tip_vs_mid :
    (∀ (pos : List (Int × Int)) (lines : ℚ × ℚ) (label : Option String),
      (Op.backward ∈ processFrame pos lines label ∨
        Op.forward ∈ processFrame pos lines label) →
      py pos 8 < py pos 6) ∧
    (total_fingers obsMiddle = 1 ∧
      processFrame obsMiddle (185, 455) (some "Left") = []) := by
  constructor
  · intro pos lines label hmem
    by_contra hre
    have h01 : Op.backward ∉ total_fingers_0 pos lines ∧
        Op.forward ∉ total_fingers_0 pos lines := by
      unfold total_fingers_0
      split <;> simp
    have h2 : Op.backward ∉ total_fingers_2 pos lines label ∧
        Op.forward ∉ total_fingers_2 pos lines label := by
      unfold total_fingers_2
      split_ifs <;> simp_all
    have h1 : total_fingers_1 pos lines label = [] := by
      unfold total_fingers_1
      simp [hre]
    rcases hmem with hmem | hmem <;>
    · unfold processFrame at hmem
      split at hmem <;> simp_all
  · exact ⟨by decide, by decide⟩

/-- Witness for the universally quantified part of the C4 amended
theorem at a concrete observation where Seek fires. -/
theorem seek_gate_is_tip_vs_mid_witness :
    py obsIndex 8 < py obsIndex 6 :=
  seek_gate_is_tip_vs_mid.1 obsIndex (185, 455) (some "Left")
    (Or.inl (by decide))

/-- C5: at finger count 2 the Volume family invokes an operation only
when the middle (12 vs 10) and index (8 vs 6) fingertip rechecks both
hold; with both rechecks passing, the frame invokes exactly
`volume_decrease` when the palm-center landmark 9 is strictly left of
the left boundary with handedness Left, exactly `volume_increase` when
strictly right of the right boundary with handedness Right, and nothing
in every other handedness/zone combination. -/
theorem two_finger_volume_zones (pos : List (Int × Int)) (lines : ℚ × ℚ)
    (label : Option String) :
    ((Op.volume_decrease ∈ processFrame pos lines label ∨
        Op.volume_increase ∈ processFrame pos lines label) →
      py pos 12 < py pos 10 ∧ py pos 8 < py pos 6) ∧
    (pos ≠ [] → total_fingers pos = 2 →
      py pos 12 < py pos 10 → py pos 8 < py pos 6 →
      (((px pos 9 : ℚ) < lines.1 ∧ label = some "Left") →
        processFrame pos lines label = [Op.volume_decrease]) ∧
      (((px pos 9 : ℚ) > lines.2 ∧ label = some "Right") →
        processFrame pos lines label = [Op.volume_increase]) ∧
      (¬ ((px pos 9 : ℚ) < lines.1 ∧ label = some "Left") →
        ¬ ((px pos 9 : ℚ) > lines.2 ∧ label = some "Right") →
        processFrame pos lines label = [])) := by
  constructor
  · intro hmem
    by_contra hre
    have h0 : Op.volume_decrease ∉ total_fingers_0 pos lines ∧
        Op.volume_increase ∉ total_fingers_0 pos lines := by
      unfold total_fingers_0
      split <;> simp
    have h1 : Op.volume_decrease ∉ total_fingers_1 pos lines label ∧
        Op.volume_increase ∉ total_fingers_1 pos lines label := by
      unfold total_fingers_1
      split_ifs <;> simp_all
    have h2 : total_fingers_2 pos lines label = [] := by
      unfold total_fingers_2
      rw [if_neg]
      exact fun hc => hre hc
    rcases hmem with hmem | hmem <;>
    · unfold processFrame at hmem
      split at hmem <;> simp_all
  · intro hpos h2 hre12 hre8
    have hlen : pos.length ≠ 0 := by simpa using hpos
    refine ⟨fun hL => ?_, fun hR => ?_, fun hnL hnR => ?_⟩
    · have hnR : ¬ ((px pos 9 : ℚ) > lines.2 ∧ label = some "Right") := by
        rintro ⟨-, hlab⟩
        rw [hL.2] at hlab
        exact (by simp at hlab)
      simp [processFrame, hlen, h2, total_fingers_2, hre12, hre8, hL, hnR]
    · have hnL : ¬ ((px pos 9 : ℚ) < lines.1 ∧ label = some "Left") := by
        rintro ⟨-, hlab⟩
        rw [hR.2] at hlab
        exact (by simp at hlab)
      simp [processFrame, hlen, h2, total_fingers_2, hre12, hre8, hR, hnL]
    · simp [processFrame, hlen, h2, total_fingers_2, hre12, hre8, hnL, hnR]

/-- Witness for C5 at a concrete two-finger observation in the left
zone. -/
theorem two_finger_volume_zones_witness :
    processFrame obsTwo (185, 455) (some "Left") = [Op.volume_decrease] ∧
    processFrame obsTwo (185, 455) none = [] := by
  refine ⟨((two_finger_volume_zones obsTwo (185, 455) (some "Left")).2
    (by decide) (by decide) (by decide) (by decide)).1 (by decide), ?_⟩
  exact ((two_finger_volume_zones obsTwo (185, 455) none).2
    (by decide) (by decide) (by decide) (by decide)).2.2
    (by decide) (by decide)

/-- C6: a frame whose finger count is 3 or 4, or whose landmark
position list is empty, invokes no dispatcher operation; the frame loop
simply falls through without error. -/
theorem non_actionable_frames_no_command (pos : List (Int × Int))
    (lines : ℚ × ℚ) (label : Option String)
    (h : total_fingers pos = 3 ∨ total_fingers pos = 4 ∨ pos = []) :
    processFrame pos lines label = [] := by
  unfold processFrame
  rcases h with h | h | h <;> simp [h]

/-- Witness for C6 at a concrete three-finger observation and at the
empty position list. -/
theorem non_actionable_frames_no_command_witness :
    processFrame obsThree (185, 455) (some "Left") = [] ∧
    processFrame [] (185, 455) (some "Left") = [] := by
  exact ⟨non_actionable_frames_no_command obsThree (185, 455) (some "Left")
    (Or.inl (by decide)),
    non_actionable_frames_no_command [] (185, 455) (some "Left")
    (Or.inr (Or.inr rfl))⟩

/-- C7: the line computation places the lines at the fixed pixel
fractions 555/1920 and 1365/1920 of the width and rescales by
640/width; at width 1920 the pixel positions are 555 and 1365 and the
rescaled boundaries are exactly 185 and 455. -/
theorem line_pos_at_width_1920 :
    (∀ w : ℚ, screen_first_line_x w = w * (555 / 1920) ∧
      screen_second_line_x w = w * (1365 / 1920)) ∧
    screen_first_line_x 1920 = 555 ∧
    screen_second_line_x 1920 = 1365 ∧
    line_pos 1920 1080 = (185, 455) := by
  refine ⟨fun w => ⟨?_, ?_⟩, ?_, ?_, ?_⟩ <;>
    norm_num [screen_first_line_x, screen_second_line_x, line_pos] <;> ring

/-- C10: for every positive display width and height the rescaled zone
boundaries are exactly (185, 455) — the width factor cancels, so the
result is independent of the actual resolution. -/
theorem line_pos_resolution_independent (w h : ℚ) (hw : 0 < w)
    (hh : 0 < h) : line_pos w h = (185, 455) := by
  have hw0 : w ≠ 0 := ne_of_gt hw
  unfold line_pos screen_first_line_x screen_second_line_x
  simp only [Prod.mk.injEq]
  constructor <;> field_simp <;> ring

/-- Witness for C10 at a concrete 1366 by 768 display. -/
theorem line_pos_resolution_independent_witness :
    line_pos 1366 768 = (185, 455) :=
  line_pos_resolution_independent 1366 768 (by norm_num) (by norm_num)

/-- C8: player selection lowercases the entered name and looks it up in
the factory, so any capitalisation of YouTube yields the `Youtube`
dispatcher (which supports all five operations), while an unsupported
name such as vlc yields the raised error rather than a silent no-op. -/
theorem media_player_selection :
    (∀ s : String, lower s = "youtube" →
      o_media_player s = Except.ok Youtube) ∧
    o_media_player "vlc" =
      Except.error "The application does not work on this media player!" := by
  constructor
  · intro s hs
    simp [o_media_player, create_media_player, hs]
  · rfl

/-- Witness for C8: the mixed-case and upper-case spellings of YouTube
both select the dispatcher. -/
theorem media_player_selection_witness :
    o_media_player "YouTube" = Except.ok Youtube ∧
    o_media_player "YOUTUBE" = Except.ok Youtube :=
  ⟨media_player_selection.1 "YouTube" rfl,
   media_player_selection.1 "YOUTUBE" rfl⟩

/-- C9 counterexample: with two detected hands (labels Left then
Right) the reported handedness is the last label, `some "Right"`, not
`none` — the loop overwrites the result with each classification in
turn, so multiple detected hands never yield `None`. -/
theorem hand_type_two_hands_not_none :
    hand_type ["Left", "Right"] = some "Right" ∧
    hand_type ["Left", "Right"] ≠ none := by
  decide

/-- C9 amended: `hand_type` returns `none` when no handedness
classifications are present, and otherwise the label of the last
detected hand (so multiple hands yield the last label, not `None`).
For every frame whose handedness label is `none`, the count-1 and
count-2 families invoke nothing, while the count-0 family evaluates
identically for every label. -/
theorem hand_type_none_gating :
    hand_type [] = none ∧
    (∀ (labels : List String) (l : String),
      hand_type (labels ++ [l]) = some l) ∧
    (∀ (pos : List (Int × Int)) (lines : ℚ × ℚ),
      (total_fingers pos = 1 ∨ total_fingers pos = 2) →
      processFrame pos lines none = []) ∧
    (∀ (pos : List (Int × Int)) (lines : ℚ × ℚ) (label : Option String),
      total_fingers pos = 0 →
      processFrame pos lines label = processFrame pos lines none) := by
  refine ⟨rfl, fun labels l => ?_, fun pos lines h => ?_,
    fun pos lines label h0 => ?_⟩
  · simp [hand_type, List.foldl_append]
  · rcases h with h | h
    · simp only [processFrame, h, total_fingers_1]
      split_ifs <;> simp_all
    · simp only [processFrame, h, total_fingers_2]
      split_ifs <;> simp_all
  · simp [processFrame, h0]

/-- Witness for C9 amended at concrete observations. -/
theorem hand_type_none_gating_witness :
    processFrame obsIndex (185, 455) none = [] ∧
    processFrame obsFist (185, 455) (some "Left") =
      processFrame obsFist (185, 455) none :=
  ⟨hand_type_none_gating.2.2.1 obsIndex (185, 455) (Or.inl (by decide)),
   hand_type_none_gating.2.2.2 obsFist (185, 455) (some "Left") (by decide)⟩
